import Mathlib

/-!
Verification of the action-dispatch and lifecycle engine of
`scratch-build-bot.py` (the `__main__` block of the repository's CLI
driver).

The script resolves one of three configuration sources into a
`StagingBot` handle, runs `setup()`, dispatches exactly one asynchronous
action, prints the (truthy) result, and always runs `teardown()` in a
`finally` block once setup has succeeded.

The embedding below is a shallow one: all collaborator operations of the
`StagingBot` handle (which live outside the visible source, per the spec
opaque external interfaces) are parameters of an `Env` structure, each
returning `Except Err _` to model a Python call that may raise. The
driver itself (`runMain`) is translated line by line from the source and
produces the sequence of collaborator calls and prints (`List Event`)
together with the process outcome (`Option Err`, where `none` is exit
status 0 and `some e` is an unrecovered exception `e`).
-/

namespace ScratchBuildBot

/-- Kinds of Python exceptions the driver can terminate with:
`RuntimeError` and `ValueError` are raised by the script itself with the
quoted messages; `externalError` stands for an arbitrary exception
escaping an opaque collaborator call. -/
inductive Err where
  | runtimeError (msg : String)
  | valueError (msg : String)
  | externalError (code : Nat)
deriving DecidableEq, Repr

/-- The closed set of action subcommands, from the `ACTION_T` literal
type and the registered subparsers of the source. -/
inductive Action where
  | rebuild
  | create_project
  | query_build_result
  | commit_state
  | scratch_build
  | cleanup
  | wait
  | get_build_quality
deriving DecidableEq, Repr

/-- Observable events of one driver run: handle-construction calls,
lifecycle calls, the single dispatched collaborator call with its
arguments, and writes to standard output. -/
inductive Event where
  | fromEnvFile
  | fromGithubComment (comment : String) (user : Option String)
  | constructBot (osVersion : String) (branchName : String) (user : Option String)
  | setup
  | forceRebuild
  | writePkgConfigs
  | commitState (msg : String)
  | fetchBuildResults
  | scratchBuild (msg : String)
  | remoteCleanup (branches obsProject : Bool)
  | waitForBuild (timeoutSec : Option Int)
  | output (s : String)
  | teardown
deriving DecidableEq, Repr

/-- The parsed command line, after `parser.parse_args()`. `nargs=1`
options always hold a one-element list in Python, so only that element
is modelled; `os_version` and `osc_user` default to an environment
variable that may be unset (`none`). Subcommand-local options are plain
fields with their argparse defaults. -/
structure Args where
  os_version : Option String
  osc_user : Option String
  branch_name : String
  load : Bool
  from_stdin : Bool
  action : Option Action
  commit_message : String
  no_cleanup_branch : Bool
  no_cleanup_project : Bool
  timeout_sec : Option Int
deriving Repr

/-- Behaviour of everything outside the visible source, over an abstract
build-result-set type `β`: the `OsVersion.parse` enumeration lookup, the
`StagingBot` factory paths and per-action operations (each an `Except`
to model a call that may raise), and the pure helpers `is_build_failed`
and `render_as_markdown`. Operations whose Python return value feeds
`if res: print(res)` yield an `Option String` standing for the returned
Python object (`none` is `None`). The default of the omitted
`timeout_sec` argument of `wait_for_build_to_finish` is modelled from the
spec: `get_build_quality` re-uses the wait operation with no timeout. -/
structure Env (β : Type) where
  os_version_parse : String → Option String
  stdin : String
  from_env_file : Except Err Unit
  from_github_comment : String → Option String → Except Err Unit
  setup : Except Err Unit
  teardown : Except Err Unit
  force_rebuild : Except Err (Option String)
  write_pkg_configs : Except Err (Option String)
  write_all_build_recipes_to_branch : String → Except Err (Option String)
  fetch_build_results : Except Err β
  scratch_build : String → Except Err (Option String)
  remote_cleanup : Bool → Bool → Except Err (Option String)
  wait_for_build_to_finish : Option Int → Except Err β
  is_build_failed : β → Bool
  render_as_markdown : β → String

/-- Python truthiness of an awaited action result, as tested by
`if res: print(res)`: `None` and the empty string are falsy. -/
def pyTruthy : Option String → Bool
  | none => false
  | some s => !s.isEmpty

/-- Output events produced by `if res: print(res)`. -/
def printEvents : Option String → List Event
  | none => []
  | some s => if s.isEmpty then [] else [Event.output s]

/-- Python `x or d` on an optional string, as in
`commit_or_none or "No changes"`: the default is taken when the value is
`None` or empty. -/
def pyOrElse : Option String → String → String
  | none, d => d
  | some s, d => if s.isEmpty then d else s

/-- The dispatch table of the `if action == ...` chain: the collaborator
call events of the chosen action together with the value the awaited
coroutine produces (or the exception it raises). `query_build_result`
and `wait` wrap their result set with `render_as_markdown`;
`scratch_build` substitutes "No changes" for a falsy commit;
`get_build_quality` waits with no timeout, raises
`RuntimeError "Build failed!"` when `is_build_failed` holds, and
returns the literal "Build succeded" otherwise. -/
def dispatch {β : Type} (env : Env β) (args : Args) : Action → List Event × Except Err (Option String)
  | .rebuild => ([Event.forceRebuild], env.force_rebuild)
  | .create_project => ([Event.writePkgConfigs], env.write_pkg_configs)
  | .commit_state =>
      ([Event.commitState args.commit_message],
        env.write_all_build_recipes_to_branch args.commit_message)
  | .query_build_result =>
      ([Event.fetchBuildResults],
        env.fetch_build_results.map fun r => some (env.render_as_markdown r))
  | .scratch_build =>
      ([Event.scratchBuild args.commit_message],
        (env.scratch_build args.commit_message).map fun c => some (pyOrElse c "No changes"))
  | .cleanup =>
      ([Event.remoteCleanup (!args.no_cleanup_branch) (!args.no_cleanup_project)],
        env.remote_cleanup (!args.no_cleanup_branch) (!args.no_cleanup_project))
  | .wait =>
      ([Event.waitForBuild args.timeout_sec],
        (env.wait_for_build_to_finish args.timeout_sec).map fun r =>
          some (env.render_as_markdown r))
  | .get_build_quality =>
      ([Event.waitForBuild none],
        match env.wait_for_build_to_finish none with
        | .error e => .error e
        | .ok r =>
            if env.is_build_failed r then .error (.runtimeError "Build failed!")
            else .ok (some "Build succeded"))

/-- Configuration resolution, lines 147-161 of the source: the `--load`
path calls `StagingBot.from_env_file`, the `--from-stdin` path reads
standard input and calls `StagingBot.from_github_comment`, and the
explicit path validates `os_version` (absent or empty raises
`ValueError`, an unparsable value raises out of `OsVersion.parse`) and
constructs the bot. Returns the construction events and `some e` when
resolution raised `e` (so no handle exists). -/
def resolveConfig {β : Type} (env : Env β) (args : Args) : List Event × Option Err :=
  if args.load then
    ([Event.fromEnvFile],
      match env.from_env_file with
      | .ok _ => none
      | .error e => some e)
  else if args.from_stdin then
    ([Event.fromGithubComment env.stdin args.osc_user],
      match env.from_github_comment env.stdin args.osc_user with
      | .ok _ => none
      | .error e => some e)
  else
    match args.os_version with
    | none => ([], some (.valueError "No OS version has been set"))
    | some s =>
      if s.isEmpty then ([], some (.valueError "No OS version has been set"))
      else
        match env.os_version_parse s with
        | none => ([], some (.valueError ("Unknown OS version: " ++ s)))
        | some v => ([Event.constructBot v args.branch_name args.osc_user], none)

/-- Setup, dispatch, print and teardown, lines 172-234 of the source:
`setup()` runs before the `try` block (its exception skips teardown);
the dispatched coroutine and the truthy-print run inside `try`; the
`finally` clause always awaits `teardown()`, and an exception raised by
`teardown()` replaces the pending action exception, as Python's
`finally` does. -/
def runAction {β : Type} (env : Env β) (args : Args) (a : Action) : List Event × Option Err :=
  match env.setup with
  | .error e => ([Event.setup], some e)
  | .ok _ =>
    match (dispatch env args a).2 with
    | .ok v =>
        (Event.setup :: ((dispatch env args a).1 ++ printEvents v ++ [Event.teardown]),
          match env.teardown with
          | .ok _ => none
          | .error te => some te)
    | .error e =>
        (Event.setup :: ((dispatch env args a).1 ++ [Event.teardown]),
          match env.teardown with
          | .ok _ => some e
          | .error te => some te)

/-- The whole driver run, lines 141-234 of the source: the mutual
exclusion of `--load` and `--from-stdin` is checked first, then that an
action was given, then configuration is resolved, then the action runs
under the lifecycle. Result: the event trace and the process outcome
(`none` for exit 0). -/
def runMain {β : Type} (env : Env β) (args : Args) : List Event × Option Err :=
  if args.load && args.from_stdin then
    ([], some (.runtimeError "The --from-stdin and --load flags are mutually exclusive"))
  else
    match args.action with
    | none => ([], some (.runtimeError "No action specified"))
    | some a =>
      match (resolveConfig env args).2 with
      | some e => ((resolveConfig env args).1, some e)
      | none =>
        ((resolveConfig env args).1 ++ (runAction env args a).1, (runAction env args a).2)

/-- Strings written to standard output during a run. -/
def outputsOf (tr : List Event) : List String :=
  tr.filterMap fun e =>
    match e with
    | .output s => some s
    | _ => none

/-- Timeout arguments of the `wait_for_build_to_finish` calls of a run. -/
def waitCallsOf (tr : List Event) : List (Option Int) :=
  tr.filterMap fun e =>
    match e with
    | .waitForBuild t => some t
    | _ => none

/-- Argument pairs (branches, obs_project) of the `remote_cleanup` calls
of a run. -/
def cleanupCallsOf (tr : List Event) : List (Bool × Bool) :=
  tr.filterMap fun e =>
    match e with
    | .remoteCleanup b p => some (b, p)
    | _ => none

/-- Recogniser of the `setup()` call event. -/
def isSetup : Event → Bool
  | .setup => true
  | _ => false

/-- Recogniser of the `teardown()` call event. -/
def isTeardown : Event → Bool
  | .teardown => true
  | _ => false

/-- Recogniser of the three handle-construction events. -/
def isConstruction : Event → Bool
  | .fromEnvFile => true
  | .fromGithubComment _ _ => true
  | .constructBot _ _ _ => true
  | _ => false

/-- How many handle-construction calls a run made. -/
def constructionCount (tr : List Event) : Nat := tr.countP isConstruction

/-- How many times `setup()` was called in a run. -/
def setupCount (tr : List Event) : Nat := tr.countP isSetup

/-- How many times `teardown()` was called in a run. -/
def teardownCount (tr : List Event) : Nat := tr.countP isTeardown

/-- The last event of a run. -/
def lastEvent (tr : List Event) : Option Event := tr.getLast?

/-- Whether an awaited collaborator call completed without raising. -/
def exceptOk {α : Type} : Except Err α → Bool
  | .ok _ => true
  | .error _ => false

/-- Whether the explicit-mode `--os-version` value is present, non-empty
and accepted by `OsVersion.parse`, i.e. passes lines 153-156 of the
source. -/
def osVersionPresentOk {β : Type} (env : Env β) (args : Args) : Bool :=
  match args.os_version with
  | none => false
  | some s => !s.isEmpty && (env.os_version_parse s).isSome

theorem outputsOf_append (l₁ l₂ : List Event) :
    outputsOf (l₁ ++ l₂) = outputsOf l₁ ++ outputsOf l₂ :=
  List.filterMap_append l₁ l₂ _

theorem waitCallsOf_append (l₁ l₂ : List Event) :
    waitCallsOf (l₁ ++ l₂) = waitCallsOf l₁ ++ waitCallsOf l₂ :=
  List.filterMap_append l₁ l₂ _

theorem cleanupCallsOf_append (l₁ l₂ : List Event) :
    cleanupCallsOf (l₁ ++ l₂) = cleanupCallsOf l₁ ++ cleanupCallsOf l₂ :=
  List.filterMap_append l₁ l₂ _

/-- Configuration resolution performs no dispatch, lifecycle or output
events: its trace is at most one handle-construction event. -/
theorem resolveConfig_quiet {β : Type} (env : Env β) (args : Args) :
    outputsOf (resolveConfig env args).1 = [] ∧
    waitCallsOf (resolveConfig env args).1 = [] ∧
    cleanupCallsOf (resolveConfig env args).1 = [] ∧
    setupCount (resolveConfig env args).1 = 0 ∧
    teardownCount (resolveConfig env args).1 = 0 := by
  unfold resolveConfig
  repeat' split
  all_goals
    simp [outputsOf, waitCallsOf, cleanupCallsOf, setupCount, teardownCount,
      isSetup, isTeardown]

/-- The dispatched action call itself performs no lifecycle, output or
construction events. -/
theorem dispatch_quiet {β : Type} (env : Env β) (args : Args) (a : Action) :
    setupCount (dispatch env args a).1 = 0 ∧
    teardownCount (dispatch env args a).1 = 0 ∧
    outputsOf (dispatch env args a).1 = [] ∧
    constructionCount (dispatch env args a).1 = 0 := by
  cases a <;>
    simp [dispatch, setupCount, teardownCount, outputsOf, constructionCount,
      isSetup, isTeardown, isConstruction]

/-- What `if res: print(res)` contributes to the trace: possibly one
output event, never lifecycle, construction, wait or cleanup events. -/
theorem printEvents_quiet (v : Option String) :
    setupCount (printEvents v) = 0 ∧
    teardownCount (printEvents v) = 0 ∧
    constructionCount (printEvents v) = 0 ∧
    waitCallsOf (printEvents v) = [] ∧
    cleanupCallsOf (printEvents v) = [] := by
  rcases v with _ | s
  · simp [printEvents, setupCount, teardownCount, constructionCount,
      waitCallsOf, cleanupCallsOf, isSetup, isTeardown, isConstruction]
  · simp only [printEvents]
    split <;>
      simp [setupCount, teardownCount, constructionCount, waitCallsOf,
        cleanupCallsOf, isSetup, isTeardown, isConstruction]

theorem outputsOf_printEvents_none : outputsOf (printEvents none) = [] := rfl

theorem outputsOf_printEvents_some (s : String) :
    outputsOf (printEvents (some s)) = if s.isEmpty then [] else [s] := by
  simp only [printEvents]
  split <;> simp [outputsOf]

/-- Decomposition of a run that passed the flag and action checks and
resolved its configuration without raising. -/
theorem runMain_resolved {β : Type} (env : Env β) (args : Args) (a : Action)
    (hlf : (args.load && args.from_stdin) = false)
    (ha : args.action = some a)
    (hc : (resolveConfig env args).2 = none) :
    runMain env args =
      ((resolveConfig env args).1 ++ (runAction env args a).1,
        (runAction env args a).2) := by
  simp [runMain, hlf, ha, hc]

/-- When `setup()` raises, the run stops with that exception and the
trace after resolution is the bare setup call. -/
theorem runAction_setup_err {β : Type} (env : Env β) (args : Args) (a : Action)
    (e : Err) (hs : env.setup = .error e) :
    runAction env args a = ([Event.setup], some e) := by
  simp [runAction, hs]

/-- Shape of the post-resolution trace when setup succeeded and the
dispatched coroutine returned `v`. -/
theorem runAction_ok_dispatch_ok {β : Type} (env : Env β) (args : Args) (a : Action)
    (v : Option String) (hs : env.setup = .ok ())
    (hd : (dispatch env args a).2 = .ok v) :
    (runAction env args a).1 =
      Event.setup :: ((dispatch env args a).1 ++ printEvents v ++ [Event.teardown]) := by
  simp [runAction, hs, hd]

/-- Shape of the post-resolution trace when setup succeeded and the
dispatched coroutine raised. -/
theorem runAction_ok_dispatch_err {β : Type} (env : Env β) (args : Args) (a : Action)
    (e : Err) (hs : env.setup = .ok ())
    (hd : (dispatch env args a).2 = .error e) :
    (runAction env args a).1 =
      Event.setup :: ((dispatch env args a).1 ++ [Event.teardown]) := by
  simp [runAction, hs, hd]

/-- When the dispatched coroutine raises after a successful setup, the
process outcome is a failure (either the action's exception or the one
`teardown()` replaced it with). -/
theorem runAction_snd_ne_none {β : Type} (env : Env β) (args : Args) (a : Action)
    (e : Err) (hs : env.setup = .ok ())
    (hd : (dispatch env args a).2 = .error e) :
    (runAction env args a).2 ≠ none := by
  simp only [runAction, hs, hd]
  cases env.teardown <;> simp

/-- Whatever the lifecycle adds, the wait and cleanup calls of the
post-resolution phase are exactly those of the dispatched action. -/
theorem runAction_calls {β : Type} (env : Env β) (args : Args) (a : Action)
    (hs : env.setup = .ok ()) :
    waitCallsOf (runAction env args a).1 = waitCallsOf (dispatch env args a).1 ∧
    cleanupCallsOf (runAction env args a).1 = cleanupCallsOf (dispatch env args a).1 := by
  rcases hd : (dispatch env args a).2 with e | v
  · rw [runAction_ok_dispatch_err env args a e hs hd]
    simp [waitCallsOf, cleanupCallsOf, List.filterMap_append]
  · rw [runAction_ok_dispatch_ok env args a v hs hd]
    rcases v with _ | s
    · simp [waitCallsOf, cleanupCallsOf, printEvents, List.filterMap_append]
    · simp only [printEvents]
      split <;> simp [waitCallsOf, cleanupCallsOf, List.filterMap_append]

/-- Standard output of the post-resolution phase when the dispatched
coroutine returned `v`: exactly what `if res: print(res)` emits. -/
theorem runAction_outputs_ok {β : Type} (env : Env β) (args : Args) (a : Action)
    (v : Option String) (hs : env.setup = .ok ())
    (hd : (dispatch env args a).2 = .ok v) :
    outputsOf (runAction env args a).1 = outputsOf (printEvents v) := by
  rw [runAction_ok_dispatch_ok env args a v hs hd]
  obtain ⟨-, -, hdo, -⟩ := dispatch_quiet env args a
  simp only [outputsOf] at hdo ⊢
  simp [List.filterMap_append, hdo]

/-- Nothing is printed when the dispatched coroutine raises. -/
theorem runAction_outputs_err {β : Type} (env : Env β) (args : Args) (a : Action)
    (e : Err) (hs : env.setup = .ok ())
    (hd : (dispatch env args a).2 = .error e) :
    outputsOf (runAction env args a).1 = [] := by
  rw [runAction_ok_dispatch_err env args a e hs hd]
  obtain ⟨-, -, hdo, -⟩ := dispatch_quiet env args a
  simp only [outputsOf] at hdo ⊢
  simp [List.filterMap_append, hdo]

theorem runMain_fst {β : Type} (env : Env β) (args : Args) (a : Action)
    (hlf : (args.load && args.from_stdin) = false)
    (ha : args.action = some a)
    (hc : (resolveConfig env args).2 = none) :
    (runMain env args).1 = (resolveConfig env args).1 ++ (runAction env args a).1 := by
  rw [runMain_resolved env args a hlf ha hc]

theorem runMain_snd {β : Type} (env : Env β) (args : Args) (a : Action)
    (hlf : (args.load && args.from_stdin) = false)
    (ha : args.action = some a)
    (hc : (resolveConfig env args).2 = none) :
    (runMain env args).2 = (runAction env args a).2 := by
  rw [runMain_resolved env args a hlf ha hc]

/-- Standard output of a whole resolved run comes only from the
dispatched phase. -/
theorem runMain_outputs {β : Type} (env : Env β) (args : Args) (a : Action)
    (hlf : (args.load && args.from_stdin) = false)
    (ha : args.action = some a)
    (hc : (resolveConfig env args).2 = none) :
    outputsOf (runMain env args).1 = outputsOf (runAction env args a).1 := by
  rw [runMain_fst env args a hlf ha hc, outputsOf_append,
    (resolveConfig_quiet env args).1, List.nil_append]

/-- The wait and cleanup calls of a whole resolved run are those of the
dispatched action. -/
theorem runMain_calls {β : Type} (env : Env β) (args : Args) (a : Action)
    (hlf : (args.load && args.from_stdin) = false)
    (ha : args.action = some a)
    (hc : (resolveConfig env args).2 = none)
    (hs : env.setup = .ok ()) :
    waitCallsOf (runMain env args).1 = waitCallsOf (dispatch env args a).1 ∧
    cleanupCallsOf (runMain env args).1 = cleanupCallsOf (dispatch env args a).1 := by
  obtain ⟨-, hw, hcl, -, -⟩ := resolveConfig_quiet env args
  obtain ⟨hw2, hcl2⟩ := runAction_calls env args a hs
  rw [runMain_fst env args a hlf ha hc]
  constructor
  · rw [waitCallsOf_append, hw, List.nil_append, hw2]
  · rw [cleanupCallsOf_append, hcl, List.nil_append, hcl2]

/-- A concrete collaborator environment (over `β := Bool` as the
build-result-set type) used to instantiate the theorems below on
executable inputs. -/
def wEnv : Env Bool where
  os_version_parse := fun s => some s
  stdin := "bot comment"
  from_env_file := .ok ()
  from_github_comment := fun _ _ => .ok ()
  setup := .ok ()
  teardown := .ok ()
  force_rebuild := .ok none
  write_pkg_configs := .ok none
  write_all_build_recipes_to_branch := fun _ => .ok none
  fetch_build_results := .ok false
  scratch_build := fun _ => .ok (some "abc123")
  remote_cleanup := fun _ _ => .ok none
  wait_for_build_to_finish := fun _ => .ok false
  is_build_failed := fun b => b
  render_as_markdown := fun b => cond b "build failed table" "all green table"

/-- A concrete explicit-mode command line selecting action `a`. -/
def wArgs (a : Action) : Args where
  os_version := some "15.6"
  osc_user := some "geeko"
  branch_name := "test-branch"
  load := false
  from_stdin := false
  action := some a
  commit_message := "Test build"
  no_cleanup_branch := true
  no_cleanup_project := false
  timeout_sec := some 5

/-- C3: when both the `load` and `from-stdin` flags are set, the run
fails immediately with the mutual-exclusion configuration error; no
session handle is constructed and neither `setup()` nor `teardown()` is
ever called. -/
theorem c3_conflicting_sources {β : Type} (env : Env β) (args : Args)
    (hl : args.load = true) (hf : args.from_stdin = true) :
    (runMain env args).2 =
      some (Err.runtimeError "The --from-stdin and --load flags are mutually exclusive") ∧
    constructionCount (runMain env args).1 = 0 ∧
    setupCount (runMain env args).1 = 0 ∧
    teardownCount (runMain env args).1 = 0 := by
  simp [runMain, hl, hf, constructionCount, setupCount, teardownCount]

/-- A command line with both configuration-source flags set. -/
def wArgsC3 : Args := { wArgs Action.rebuild with load := true, from_stdin := true }

/-- Witness for C3 at a concrete command line. -/
theorem c3_witness :
    (runMain wEnv wArgsC3).2 =
      some (Err.runtimeError "The --from-stdin and --load flags are mutually exclusive") ∧
    constructionCount (runMain wEnv wArgsC3).1 = 0 ∧
    setupCount (runMain wEnv wArgsC3).1 = 0 ∧
    teardownCount (runMain wEnv wArgsC3).1 = 0 :=
  c3_conflicting_sources wEnv wArgsC3 rfl rfl

/-- In explicit mode, a missing, empty or unparsable os-version makes
resolution raise a ValueError with an empty trace. -/
theorem resolveConfig_explicit_bad {β : Type} (env : Env β) (args : Args)
    (hl : args.load = false) (hf : args.from_stdin = false)
    (hbad : osVersionPresentOk env args = false) :
    (resolveConfig env args).1 = [] ∧
    ∃ m, (resolveConfig env args).2 = some (Err.valueError m) := by
  rcases hos : args.os_version with _ | s
  · simp [resolveConfig, hl, hf, hos]
  · simp only [osVersionPresentOk, hos] at hbad
    rcases hse : s.isEmpty with _ | _
    · rcases hp : env.os_version_parse s with _ | v
      · simp [resolveConfig, hl, hf, hos, hse, hp]
      · rw [hse, hp] at hbad
        simp at hbad
    · simp [resolveConfig, hl, hf, hos, hse]

/-- C4: in explicit-parameters mode (neither `load` nor `from-stdin`),
an absent, empty or unparsable os-version fails validation with an
empty trace (so before any handle setup or remote call), and a handle
is constructed only when the os-version is present and parses. -/
theorem c4_explicit_os_version_validation {β : Type} (env : Env β) (args : Args)
    (hl : args.load = false) (hf : args.from_stdin = false) :
    (∀ a : Action, args.action = some a → osVersionPresentOk env args = false →
      (runMain env args).1 = [] ∧
      ∃ m, (runMain env args).2 = some (Err.valueError m)) ∧
    (constructionCount (runMain env args).1 ≠ 0 →
      osVersionPresentOk env args = true) := by
  have hlf : (args.load && args.from_stdin) = false := by rw [hl]; rfl
  constructor
  · intro a ha hbad
    obtain ⟨h1, m, h2⟩ := resolveConfig_explicit_bad env args hl hf hbad
    refine ⟨?_, m, ?_⟩ <;> simp [runMain, hlf, ha, h2, h1]
  · intro hne
    by_contra hbad'
    have hbad : osVersionPresentOk env args = false := by
      revert hbad'
      cases osVersionPresentOk env args <;> simp
    rcases ha : args.action with _ | a
    · apply hne
      simp [runMain, hlf, ha, constructionCount]
    · obtain ⟨h1, m, h2⟩ := resolveConfig_explicit_bad env args hl hf hbad
      apply hne
      simp [runMain, hlf, ha, h2, h1, constructionCount]

/-- An explicit-mode command line whose os-version is absent (its
environment variable unset). -/
def wArgsC4 : Args := { wArgs Action.rebuild with os_version := none }

/-- Witness for C4 at a concrete command line. -/
theorem c4_witness :
    (∀ a : Action, wArgsC4.action = some a → osVersionPresentOk wEnv wArgsC4 = false →
      (runMain wEnv wArgsC4).1 = [] ∧
      ∃ m, (runMain wEnv wArgsC4).2 = some (Err.valueError m)) ∧
    (constructionCount (runMain wEnv wArgsC4).1 ≠ 0 →
      osVersionPresentOk wEnv wArgsC4 = true) :=
  c4_explicit_os_version_validation wEnv wArgsC4 rfl rfl

/-- A command line with no action subcommand and both configuration
flags set. -/
def wArgsC10x : Args :=
  { wArgs Action.rebuild with action := none, load := true, from_stdin := true }

/-- C10 counterexample: with `--load` and `--from-stdin` both set and no
action, the run fails with the mutual-exclusion error, not with
"No action specified", refuting the claim as stated. -/
theorem c10_counterexample :
    wArgsC10x.action = none ∧
    (runMain wEnv wArgsC10x).2 ≠ some (Err.runtimeError "No action specified") := by
  constructor
  · rfl
  · simp [runMain, wArgsC10x, wArgs]

/-- C10 (amended): with no action subcommand the run fails before any
handle construction, with "No action specified" unless both `--load`
and `--from-stdin` are set, in which case the mutual-exclusion error
fires first; in all cases the trace is empty, so no handle is
constructed and neither `setup()` nor `teardown()` is called. -/
theorem c10_no_action {β : Type} (env : Env β) (args : Args)
    (h : args.action = none) :
    (runMain env args).1 = [] ∧
    (runMain env args).2 =
      some (if args.load && args.from_stdin then
              Err.runtimeError "The --from-stdin and --load flags are mutually exclusive"
            else Err.runtimeError "No action specified") := by
  rcases hlf : args.load && args.from_stdin with _ | _
  · simp [runMain, hlf, h]
  · simp [runMain, hlf, h]

/-- A command line with no action subcommand and no mode flags. -/
def wArgsC10 : Args := { wArgs Action.rebuild with action := none }

/-- Witness for the amended C10 at a concrete command line. -/
theorem c10_witness :
    (runMain wEnv wArgsC10).1 = [] ∧
    (runMain wEnv wArgsC10).2 =
      some (if wArgsC10.load && wArgsC10.from_stdin then
              Err.runtimeError "The --from-stdin and --load flags are mutually exclusive"
            else Err.runtimeError "No action specified") :=
  c10_no_action wEnv wArgsC10 rfl

/-- Lifecycle shape of the post-resolution phase: `setup()` is called
exactly once, `teardown()` exactly once when setup completed and never
when it raised, and a called teardown is the phase's last event. -/
theorem runAction_lifecycle {β : Type} (env : Env β) (args : Args) (a : Action) :
    (runAction env args a).1 ≠ [] ∧
    setupCount (runAction env args a).1 = 1 ∧
    teardownCount (runAction env args a).1 = (if exceptOk env.setup then 1 else 0) ∧
    (exceptOk env.setup = true →
      lastEvent (runAction env args a).1 = some Event.teardown) := by
  obtain ⟨hds, hdt, -, -⟩ := dispatch_quiet env args a
  rcases hs : env.setup with e | u
  · rw [runAction_setup_err env args a e hs]
    simp [setupCount, teardownCount, isSetup, isTeardown, exceptOk, hs, lastEvent]
  · cases u
    rcases hd : (dispatch env args a).2 with e | v
    · rw [runAction_ok_dispatch_err env args a e hs hd]
      refine ⟨by simp, ?_, ?_, ?_⟩
      · simp only [setupCount] at hds ⊢
        simp [List.countP_cons, List.countP_append, hds, isSetup, isTeardown]
      · simp only [teardownCount] at hdt ⊢
        simp [List.countP_cons, List.countP_append, hdt, isTeardown, isSetup, exceptOk, hs]
      · intro _
        have h2 : Event.setup :: ((dispatch env args a).1 ++ [Event.teardown]) =
            (Event.setup :: (dispatch env args a).1) ++ [Event.teardown] := by simp
        rw [lastEvent, h2, List.getLast?_concat]
    · rw [runAction_ok_dispatch_ok env args a v hs hd]
      obtain ⟨hps, hpt, -, -, -⟩ := printEvents_quiet v
      refine ⟨by simp, ?_, ?_, ?_⟩
      · simp only [setupCount] at hds hps ⊢
        simp [List.countP_cons, List.countP_append, hds, hps, isSetup]
      · simp only [teardownCount] at hdt hpt ⊢
        simp [List.countP_cons, List.countP_append, hdt, hpt, isTeardown, isSetup, exceptOk, hs]
      · intro _
        have h2 : Event.setup ::
              ((dispatch env args a).1 ++ printEvents v ++ [Event.teardown]) =
            (Event.setup :: ((dispatch env args a).1 ++ printEvents v)) ++
              [Event.teardown] := by simp
        rw [lastEvent, h2, List.getLast?_concat]

/-- C1: over a whole run, `teardown()` is called exactly once when
`setup()` was called (exactly once) and completed successfully, and
never otherwise — in particular never when `setup()` raised or when the
run failed before reaching it; and whenever teardown is called, it is
the last event of the run, after the dispatched action. -/
theorem c1_teardown_lifecycle {β : Type} (env : Env β) (args : Args) :
    teardownCount (runMain env args).1 =
      (if exceptOk env.setup && (setupCount (runMain env args).1 == 1) then 1 else 0) ∧
    (teardownCount (runMain env args).1 = 1 →
      lastEvent (runMain env args).1 = some Event.teardown) := by
  rcases hlf : args.load && args.from_stdin with _ | _
  · rcases ha : args.action with _ | a
    · simp [runMain, hlf, ha, teardownCount, setupCount, lastEvent]
    · rcases hc : (resolveConfig env args).2 with _ | e
      · obtain ⟨-, -, -, hsc, htc⟩ := resolveConfig_quiet env args
        obtain ⟨hne, hras, hrat, hlast⟩ := runAction_lifecycle env args a
        rw [runMain_fst env args a hlf ha hc]
        have hsetups :
            setupCount ((resolveConfig env args).1 ++ (runAction env args a).1) = 1 := by
          simp only [setupCount] at hsc hras ⊢
          rw [List.countP_append, hsc, hras]
        have hteds :
            teardownCount ((resolveConfig env args).1 ++ (runAction env args a).1) =
              (if exceptOk env.setup then 1 else 0) := by
          simp only [teardownCount] at htc hrat ⊢
          rw [List.countP_append, htc, hrat]
          simp
        constructor
        · rw [hteds, hsetups]
          cases exceptOk env.setup <;> simp
        · intro h1
          have hex : exceptOk env.setup = true := by
            by_contra hex'
            have hfalse : exceptOk env.setup = false := by
              revert hex'
              cases exceptOk env.setup <;> simp
            rw [hteds, hfalse] at h1
            simp at h1
          rw [lastEvent, List.getLast?_append_of_ne_nil _ hne]
          exact hlast hex
      · obtain ⟨-, -, -, hsc, htc⟩ := resolveConfig_quiet env args
        have hrm1 : (runMain env args).1 = (resolveConfig env args).1 := by
          simp [runMain, hlf, ha, hc]
        rw [hrm1]
        constructor
        · rw [htc, hsc]
          simp
        · intro h1
          rw [htc] at h1
          simp at h1
  · simp [runMain, hlf, teardownCount, setupCount, lastEvent]

/-- Witness for C1 at a concrete command line and environment. -/
theorem c1_witness :
    teardownCount (runMain wEnv (wArgs Action.rebuild)).1 =
      (if exceptOk wEnv.setup &&
          (setupCount (runMain wEnv (wArgs Action.rebuild)).1 == 1) then 1 else 0) ∧
    (teardownCount (runMain wEnv (wArgs Action.rebuild)).1 = 1 →
      lastEvent (runMain wEnv (wArgs Action.rebuild)).1 = some Event.teardown) :=
  c1_teardown_lifecycle wEnv (wArgs Action.rebuild)

/-- C2: every get_build_quality run calls the wait operation exactly
once and with no timeout; when the awaited result set satisfies the
failure predicate the process fails and nothing (in particular never
"Build succeded") is printed, and when it does not, the output is
exactly "Build succeded". -/
theorem c2_get_build_quality {β : Type} (env : Env β) (args : Args) (r : β)
    (hlf : (args.load && args.from_stdin) = false)
    (ha : args.action = some Action.get_build_quality)
    (hc : (resolveConfig env args).2 = none)
    (hs : env.setup = .ok ())
    (hw : env.wait_for_build_to_finish none = .ok r) :
    waitCallsOf (runMain env args).1 = [none] ∧
    (env.is_build_failed r = true →
      (runMain env args).2 ≠ none ∧ outputsOf (runMain env args).1 = []) ∧
    (env.is_build_failed r = false →
      outputsOf (runMain env args).1 = ["Build succeded"]) := by
  refine ⟨?_, ?_, ?_⟩
  · obtain ⟨hwc, -⟩ := runMain_calls env args Action.get_build_quality hlf ha hc hs
    rw [hwc]
    simp [dispatch, waitCallsOf]
  · intro hfail
    have hd : (dispatch env args Action.get_build_quality).2 =
        .error (Err.runtimeError "Build failed!") := by
      simp [dispatch, hw, hfail]
    constructor
    · rw [runMain_snd env args Action.get_build_quality hlf ha hc]
      exact runAction_snd_ne_none env args Action.get_build_quality _ hs hd
    · rw [runMain_outputs env args Action.get_build_quality hlf ha hc]
      exact runAction_outputs_err env args Action.get_build_quality _ hs hd
  · intro hok
    have hd : (dispatch env args Action.get_build_quality).2 =
        .ok (some "Build succeded") := by
      simp [dispatch, hw, hok]
    rw [runMain_outputs env args Action.get_build_quality hlf ha hc,
      runAction_outputs_ok env args Action.get_build_quality _ hs hd]
    decide

/-- Witness for C2 at a concrete command line and environment. -/
theorem c2_witness :
    waitCallsOf (runMain wEnv (wArgs Action.get_build_quality)).1 = [none] ∧
    (wEnv.is_build_failed false = true →
      (runMain wEnv (wArgs Action.get_build_quality)).2 ≠ none ∧
      outputsOf (runMain wEnv (wArgs Action.get_build_quality)).1 = []) ∧
    (wEnv.is_build_failed false = false →
      outputsOf (runMain wEnv (wArgs Action.get_build_quality)).1 = ["Build succeded"]) :=
  c2_get_build_quality wEnv (wArgs Action.get_build_quality) false rfl rfl rfl rfl rfl

/-- C5: whatever query_build_result or wait prints is verbatim the
markdown rendering of the fetched or awaited result set (and a
non-empty rendering is printed exactly once); wait forwards its
optional timeout argument to the wait operation unchanged. -/
theorem c5_markdown_rendering {β : Type} (env : Env β) (args : Args)
    (hlf : (args.load && args.from_stdin) = false)
    (hc : (resolveConfig env args).2 = none)
    (hs : env.setup = .ok ()) :
    (∀ r : β, args.action = some Action.query_build_result →
      env.fetch_build_results = .ok r →
      (∀ s, s ∈ outputsOf (runMain env args).1 → s = env.render_as_markdown r) ∧
      (env.render_as_markdown r ≠ "" →
        outputsOf (runMain env args).1 = [env.render_as_markdown r])) ∧
    (∀ r : β, args.action = some Action.wait →
      env.wait_for_build_to_finish args.timeout_sec = .ok r →
      waitCallsOf (runMain env args).1 = [args.timeout_sec] ∧
      (∀ s, s ∈ outputsOf (runMain env args).1 → s = env.render_as_markdown r) ∧
      (env.render_as_markdown r ≠ "" →
        outputsOf (runMain env args).1 = [env.render_as_markdown r])) := by
  constructor
  · intro r ha hf
    have hd : (dispatch env args Action.query_build_result).2 =
        .ok (some (env.render_as_markdown r)) := by
      simp [dispatch, hf, Except.map]
    have hout : outputsOf (runMain env args).1 =
        outputsOf (printEvents (some (env.render_as_markdown r))) := by
      rw [runMain_outputs env args Action.query_build_result hlf ha hc,
        runAction_outputs_ok env args Action.query_build_result _ hs hd]
    constructor
    · intro s hmem
      rw [hout, outputsOf_printEvents_some] at hmem
      rcases hse : (env.render_as_markdown r).isEmpty with _ | _ <;> rw [hse] at hmem
      · simpa using hmem
      · simp at hmem
    · intro hne
      have hse : (env.render_as_markdown r).isEmpty = false :=
        Bool.eq_false_iff.mpr fun h =>
          hne ((String.isEmpty_iff (env.render_as_markdown r)).mp h)
      rw [hout, outputsOf_printEvents_some, hse]
      simp
  · intro r ha hf
    have hd : (dispatch env args Action.wait).2 =
        .ok (some (env.render_as_markdown r)) := by
      simp [dispatch, hf, Except.map]
    have hout : outputsOf (runMain env args).1 =
        outputsOf (printEvents (some (env.render_as_markdown r))) := by
      rw [runMain_outputs env args Action.wait hlf ha hc,
        runAction_outputs_ok env args Action.wait _ hs hd]
    refine ⟨?_, ?_, ?_⟩
    · obtain ⟨hwc, -⟩ := runMain_calls env args Action.wait hlf ha hc hs
      rw [hwc]
      simp [dispatch, waitCallsOf]
    · intro s hmem
      rw [hout, outputsOf_printEvents_some] at hmem
      rcases hse : (env.render_as_markdown r).isEmpty with _ | _ <;> rw [hse] at hmem
      · simpa using hmem
      · simp at hmem
    · intro hne
      have hse : (env.render_as_markdown r).isEmpty = false :=
        Bool.eq_false_iff.mpr fun h =>
          hne ((String.isEmpty_iff (env.render_as_markdown r)).mp h)
      rw [hout, outputsOf_printEvents_some, hse]
      simp

/-- Witness for C5 at a concrete command line and environment. -/
theorem c5_witness :
    (∀ r : Bool, (wArgs Action.wait).action = some Action.query_build_result →
      wEnv.fetch_build_results = .ok r →
      (∀ s, s ∈ outputsOf (runMain wEnv (wArgs Action.wait)).1 →
        s = wEnv.render_as_markdown r) ∧
      (wEnv.render_as_markdown r ≠ "" →
        outputsOf (runMain wEnv (wArgs Action.wait)).1 = [wEnv.render_as_markdown r])) ∧
    (∀ r : Bool, (wArgs Action.wait).action = some Action.wait →
      wEnv.wait_for_build_to_finish (wArgs Action.wait).timeout_sec = .ok r →
      waitCallsOf (runMain wEnv (wArgs Action.wait)).1 = [(wArgs Action.wait).timeout_sec] ∧
      (∀ s, s ∈ outputsOf (runMain wEnv (wArgs Action.wait)).1 →
        s = wEnv.render_as_markdown r) ∧
      (wEnv.render_as_markdown r ≠ "" →
        outputsOf (runMain wEnv (wArgs Action.wait)).1 = [wEnv.render_as_markdown r])) :=
  c5_markdown_rendering wEnv (wArgs Action.wait) rfl rfl rfl

/-- C6: a scratch_build run whose underlying operation reports no commit
prints exactly "No changes", and one that reports a non-empty commit
identifier prints exactly that identifier. -/
theorem c6_scratch_build {β : Type} (env : Env β) (args : Args) (c : Option String)
    (hlf : (args.load && args.from_stdin) = false)
    (ha : args.action = some Action.scratch_build)
    (hc : (resolveConfig env args).2 = none)
    (hs : env.setup = .ok ())
    (hb : env.scratch_build args.commit_message = .ok c) :
    (c = none → outputsOf (runMain env args).1 = ["No changes"]) ∧
    (∀ s, c = some s → s ≠ "" → outputsOf (runMain env args).1 = [s]) := by
  have hd : (dispatch env args Action.scratch_build).2 =
      .ok (some (pyOrElse c "No changes")) := by
    simp [dispatch, hb, Except.map]
  have hout : outputsOf (runMain env args).1 =
      outputsOf (printEvents (some (pyOrElse c "No changes"))) := by
    rw [runMain_outputs env args Action.scratch_build hlf ha hc,
      runAction_outputs_ok env args Action.scratch_build _ hs hd]
  constructor
  · intro hcn
    subst hcn
    rw [hout]
    decide
  · intro s hcs hsne
    subst hcs
    have hse : s.isEmpty = false :=
      Bool.eq_false_iff.mpr fun h => hsne ((String.isEmpty_iff s).mp h)
    have hpy : pyOrElse (some s) "No changes" = s := by
      simp [pyOrElse, hse]
    rw [hout, hpy, outputsOf_printEvents_some, hse]
    simp

/-- Witness for C6 at a concrete command line and environment. -/
theorem c6_witness :
    (some "abc123" = none →
      outputsOf (runMain wEnv (wArgs Action.scratch_build)).1 = ["No changes"]) ∧
    (∀ s : String, some "abc123" = some s → s ≠ "" →
      outputsOf (runMain wEnv (wArgs Action.scratch_build)).1 = [s]) :=
  c6_scratch_build wEnv (wArgs Action.scratch_build) (some "abc123") rfl rfl rfl rfl rfl

/-- C7: every cleanup run invokes the cleanup operation exactly once,
with `branches` and `obs_project` each the negation of its own
suppression flag, independent of the other. -/
theorem c7_cleanup_flags {β : Type} (env : Env β) (args : Args)
    (hlf : (args.load && args.from_stdin) = false)
    (ha : args.action = some Action.cleanup)
    (hc : (resolveConfig env args).2 = none)
    (hs : env.setup = .ok ()) :
    cleanupCallsOf (runMain env args).1 =
      [(!args.no_cleanup_branch, !args.no_cleanup_project)] := by
  obtain ⟨-, hcl⟩ := runMain_calls env args Action.cleanup hlf ha hc hs
  rw [hcl]
  simp [dispatch, cleanupCallsOf]

/-- Witness for C7 at a concrete command line (branch cleanup
suppressed, project cleanup enabled). -/
theorem c7_witness :
    cleanupCallsOf (runMain wEnv (wArgs Action.cleanup)).1 =
      [(!(wArgs Action.cleanup).no_cleanup_branch,
        !(wArgs Action.cleanup).no_cleanup_project)] :=
  c7_cleanup_flags wEnv (wArgs Action.cleanup) rfl rfl rfl rfl

/-- C8: output is printed exactly when the dispatched value is truthy —
a `None` or empty-string value prints nothing, a non-empty string is
printed verbatim; in particular an empty markdown rendering makes
query_build_result and wait print nothing at all. -/
theorem c8_truthy_print {β : Type} (env : Env β) (args : Args) (a : Action)
    (hlf : (args.load && args.from_stdin) = false)
    (ha : args.action = some a)
    (hc : (resolveConfig env args).2 = none)
    (hs : env.setup = .ok ()) :
    (∀ v, (dispatch env args a).2 = .ok v → pyTruthy v = false →
      outputsOf (runMain env args).1 = []) ∧
    (∀ s, (dispatch env args a).2 = .ok (some s) → s ≠ "" →
      outputsOf (runMain env args).1 = [s]) ∧
    (∀ r : β, a = Action.query_build_result → env.fetch_build_results = .ok r →
      env.render_as_markdown r = "" → outputsOf (runMain env args).1 = []) ∧
    (∀ r : β, a = Action.wait →
      env.wait_for_build_to_finish args.timeout_sec = .ok r →
      env.render_as_markdown r = "" → outputsOf (runMain env args).1 = []) := by
  refine ⟨?_, ?_, ?_, ?_⟩
  · intro v hd hfalsy
    rw [runMain_outputs env args a hlf ha hc,
      runAction_outputs_ok env args a v hs hd]
    rcases v with _ | s
    · decide
    · rcases hse : s.isEmpty with _ | _
      · simp [pyTruthy, hse] at hfalsy
      · rw [outputsOf_printEvents_some, hse]
        simp
  · intro s hd hsne
    rw [runMain_outputs env args a hlf ha hc,
      runAction_outputs_ok env args a (some s) hs hd]
    have hse : s.isEmpty = false :=
      Bool.eq_false_iff.mpr fun h => hsne ((String.isEmpty_iff s).mp h)
    rw [outputsOf_printEvents_some, hse]
    simp
  · intro r hae hf hre
    subst hae
    have hd : (dispatch env args Action.query_build_result).2 =
        .ok (some (env.render_as_markdown r)) := by
      simp [dispatch, hf, Except.map]
    rw [runMain_outputs env args Action.query_build_result hlf ha hc,
      runAction_outputs_ok env args Action.query_build_result _ hs hd,
      outputsOf_printEvents_some, hre]
    decide
  · intro r hae hf hre
    subst hae
    have hd : (dispatch env args Action.wait).2 =
        .ok (some (env.render_as_markdown r)) := by
      simp [dispatch, hf, Except.map]
    rw [runMain_outputs env args Action.wait hlf ha hc,
      runAction_outputs_ok env args Action.wait _ hs hd,
      outputsOf_printEvents_some, hre]
    decide

/-- Witness for C8 at a concrete command line (the rebuild action, whose
dispatched value is `None`). -/
theorem c8_witness :
    (∀ v, (dispatch wEnv (wArgs Action.rebuild) Action.rebuild).2 = .ok v →
      pyTruthy v = false →
      outputsOf (runMain wEnv (wArgs Action.rebuild)).1 = []) ∧
    (∀ s, (dispatch wEnv (wArgs Action.rebuild) Action.rebuild).2 = .ok (some s) →
      s ≠ "" → outputsOf (runMain wEnv (wArgs Action.rebuild)).1 = [s]) ∧
    (∀ r : Bool, Action.rebuild = Action.query_build_result →
      wEnv.fetch_build_results = .ok r →
      wEnv.render_as_markdown r = "" →
      outputsOf (runMain wEnv (wArgs Action.rebuild)).1 = []) ∧
    (∀ r : Bool, Action.rebuild = Action.wait →
      wEnv.wait_for_build_to_finish (wArgs Action.rebuild).timeout_sec = .ok r →
      wEnv.render_as_markdown r = "" →
      outputsOf (runMain wEnv (wArgs Action.rebuild)).1 = []) :=
  c8_truthy_print wEnv (wArgs Action.rebuild) Action.rebuild rfl rfl rfl rfl

/-- C9: a scratch_build run whose underlying operation returns a
present but empty commit identifier prints "No changes", exactly as
when no identifier is returned: the test is Python truthiness, not a
None check. -/
theorem c9_scratch_empty_commit {β : Type} (env : Env β) (args : Args)
    (hlf : (args.load && args.from_stdin) = false)
    (ha : args.action = some Action.scratch_build)
    (hc : (resolveConfig env args).2 = none)
    (hs : env.setup = .ok ())
    (hb : env.scratch_build args.commit_message = .ok (some "")) :
    outputsOf (runMain env args).1 = ["No changes"] := by
  have hd : (dispatch env args Action.scratch_build).2 =
      .ok (some (pyOrElse (some "") "No changes")) := by
    simp [dispatch, hb, Except.map]
  rw [runMain_outputs env args Action.scratch_build hlf ha hc,
    runAction_outputs_ok env args Action.scratch_build _ hs hd]
  decide

/-- An environment whose scratch-build operation reports a present but
empty commit identifier. -/
def wEnvE : Env Bool := { wEnv with scratch_build := fun _ => .ok (some "") }

/-- Witness for C9 at a concrete command line and environment. -/
theorem c9_witness :
    outputsOf (runMain wEnvE (wArgs Action.scratch_build)).1 = ["No changes"] :=
  c9_scratch_empty_commit wEnvE (wArgs Action.scratch_build) rfl rfl rfl rfl rfl

end ScratchBuildBot
